import Mathlib

/-!
Shallow embedding of the shipping-label automation core of the
hot-date-kitchen repository, covering:

* `src/rules.js` — the rate-selection rule (default export `rules`),
* `src/utils/retry.js` — the generic backoff retry engine (`retry`),
* `src/index.js` — the orchestrator error handling around the
  quoting-plus-selection retry (`purchaseShippingLabelsHandler`).

Numbers that the JavaScript source manipulates exactly (rates in dollars,
delay milliseconds, jitter factors) are modelled as rationals; counters as
naturals/integers.  Asynchronous effects are modelled by explicit data: the
operation handed to `retry` becomes a stream `attempts : Nat → Except JsError α`
of per-invocation outcomes, and `Math.random()` draws become a stream
`uRand : Nat → ℚ` of values in `[0, 1)`.
-/

namespace HotDates

instance {ε α : Type} [DecidableEq ε] [DecidableEq α] : DecidableEq (Except ε α) :=
  fun x y =>
  match x, y with
  | .ok a, .ok b =>
    if h : a = b then .isTrue (by rw [h])
    else .isFalse (fun hc => by cases hc; exact h rfl)
  | .ok _, .error _ => .isFalse (fun hc => by cases hc)
  | .error _, .ok _ => .isFalse (fun hc => by cases hc)
  | .error a, .error b =>
    if h : a = b then .isTrue (by rw [h])
    else .isFalse (fun hc => by cases hc; exact h rfl)

/-! ### Rate selection (`src/rules.js`) -/

/-- An EasyPost rate object, restricted to the fields `rules.js` reads.
`id` is an `Option` because a JavaScript property access can yield
`undefined`; `rate` is the numeric value of the decimal-string price. -/
structure Rate where
  id : Option String
  carrier : String
  service : String
  rate : ℚ
  delivery_days : Int
deriving DecidableEq

/-- The error thrown by `rules.js` (`class NoSuitableRatesError extends Error`). -/
structure NoSuitableRatesError where
  message : String
deriving DecidableEq

/-- The comparison underlying the JSONata sort
`$sort(function($l, $r) \x7b$number($l.rate) > $number($r.rate)\x7d)`:
the comparator swaps exactly when `l.rate > r.rate`, so the sort is a
stable ascending sort by numeric rate. -/
def rateLE (a b : Rate) : Prop := a.rate ≤ b.rate

instance : DecidableRel rateLE := fun a b =>
  inferInstanceAs (Decidable (a.rate ≤ b.rate))

instance : IsTotal Rate rateLE := ⟨fun a b => le_total a.rate b.rate⟩

instance : IsTrans Rate rateLE := ⟨fun _ _ _ h1 h2 => le_trans h1 h2⟩

/-- The JSONata filter `$[delivery_days<=2]`. -/
def eligibleFilter (rates : List Rate) : List Rate :=
  rates.filter (fun q => q.delivery_days ≤ 2)

/-- Model of the JSONata query
`$[delivery_days<=2] ~> $sort(...)` evaluated on the rate list: filter to
two-day-or-less rates, stable-sort ascending by numeric rate; an empty
result sequence is JSONata `undefined`, modelled as `none`. -/
def ratesFor2DaysOrLess (rates : List Rate) : Option (List Rate) :=
  let sorted := List.insertionSort rateLE (eligibleFilter rates)
  if sorted.isEmpty then none else some sorted

/-- The `chosenRate` computation of `rules.js`: if `zone > 2`, take the head
of the non-USPS remainder (`nonUSPSRates?.[0]?.id`); otherwise take the head
of the sorted eligible list (`ratesFor2DaysOrLess?.[0]?.id`). -/
def chosenRateOf (zone : Int) (sorted : List Rate) : Option String :=
  if zone > 2 then
    ((sorted.filter (fun q => q.carrier ≠ "USPS")).head?).bind Rate.id
  else
    sorted.head?.bind Rate.id

/-- The shape of the EasyPost shipment object that `rules.js` reads. -/
structure EasypostShipment where
  rates : List Rate
  usps_zone : Int
deriving DecidableEq

/-- The default export of `src/rules.js`: selects a rate id for a shipment
or throws `NoSuitableRatesError`, modelled with `Except`. -/
def rules (s : EasypostShipment) : Except NoSuitableRatesError String :=
  if s.rates.isEmpty then
    .error ⟨"Easypost shipment returned zero rates"⟩
  else
    match ratesFor2DaysOrLess s.rates with
    | none => .error ⟨"No rates for 2 days or less"⟩
    | some sorted =>
      match chosenRateOf s.usps_zone sorted with
      | none => .error ⟨"chosenRate: undefined"⟩
      | some i => .ok i

/-- Eligibility of a quote under the business rules at a given zone:
delivery in two days or less, and not the reserved carrier when `zone > 2`. -/
def eligibleRate (zone : Int) (q : Rate) : Prop :=
  q.delivery_days ≤ 2 ∧ (zone > 2 → q.carrier ≠ "USPS")

instance (zone : Int) : DecidablePred (eligibleRate zone) := fun q =>
  inferInstanceAs (Decidable (q.delivery_days ≤ 2 ∧ (zone > 2 → q.carrier ≠ "USPS")))

/-! ### Retry engine (`src/utils/retry.js`) -/

/-- A JavaScript error value, identified by its constructor name (`kind`)
and message. -/
structure JsError where
  kind : String
  message : String
deriving DecidableEq

/-- The options object accepted by `retry`; `none` models an omitted field. -/
structure RetryOptions where
  backoff : Option Bool := none
  backoffMultiplier : Option ℚ := none
  retryInterval : Option ℚ := none
  maxRetries : Option Int := none
  jitter : Option ℚ := none
  maxDelay : Option ℚ := none
  timeout : Option ℚ := none

/-- The configuration after destructuring with defaults. -/
structure RetryConfig where
  backoff : Bool
  backoffMultiplier : ℚ
  retryInterval : ℚ
  maxRetries : Int
  jitter : ℚ
  maxDelay : ℚ
  timeout : ℚ
deriving DecidableEq

/-- The destructuring defaults at the top of `retry`:
`backoff = true, backoffMultiplier = 2, retryInterval = 1000, maxRetries = 3,
jitter = 1, maxDelay = 30000, timeout = 0`. -/
def resolveOptions (o : RetryOptions) : RetryConfig where
  backoff := o.backoff.getD true
  backoffMultiplier := o.backoffMultiplier.getD 2
  retryInterval := o.retryInterval.getD 1000
  maxRetries := o.maxRetries.getD 3
  jitter := o.jitter.getD 1
  maxDelay := o.maxDelay.getD 30000
  timeout := o.timeout.getD 0

/-- The `// Validate options` block of `retry`, in source order.  The two
dynamic-type checks (`typeof asyncFn !== "function"`,
`!Array.isArray(ErrorTypes)`) are modelled by the boolean flags. -/
def validateRetryArgs (asyncFnIsFunction errorTypesIsArray : Bool)
    (c : RetryConfig) : Option JsError :=
  if !asyncFnIsFunction then some ⟨"TypeError", "asyncFn must be a function"⟩
  else if !errorTypesIsArray then some ⟨"TypeError", "ErrorTypes must be an array"⟩
  else if c.jitter < 0 ∨ c.jitter > 1 then
    some ⟨"RangeError", "jitter must be between 0 and 1.0"⟩
  else if c.maxRetries < 0 then
    some ⟨"RangeError", "maxRetries must be non-negative"⟩
  else if c.retryInterval < 0 then
    some ⟨"RangeError", "retryInterval must be non-negative"⟩
  else none

/-- The `shouldRetry` test of `retry`: an empty `ErrorTypes` array matches
every error, otherwise the kind of the error must be one of the listed kinds. -/
def shouldRetry (errorKinds : List String) (e : JsError) : Bool :=
  errorKinds.isEmpty || errorKinds.contains e.kind

/-- The pre-jitter delay after incrementing `attempt` to `attemptNumber`:
exponential backoff (or the flat interval) capped by `maxDelay`. -/
def baseDelay (c : RetryConfig) (attemptNumber : Nat) : ℚ :=
  let d := if c.backoff then
      c.retryInterval * c.backoffMultiplier ^ (attemptNumber - 1)
    else c.retryInterval
  min d c.maxDelay

/-- The `// Apply jitter` step: when `jitter > 0`,
`delay = delay + delay*jitter*u - delay*jitter/2` for a random draw `u`. -/
def jitteredDelay (c : RetryConfig) (d uDraw : ℚ) : ℚ :=
  if 0 < c.jitter then d + d * c.jitter * uDraw - d * c.jitter / 2 else d

/-- The delay actually slept between attempts:
`setTimeout(resolve, Math.max(0, delay))`. -/
def waitedDelay (c : RetryConfig) (attemptNumber : Nat) (uDraw : ℚ) : ℚ :=
  max 0 (jitteredDelay c (baseDelay c attemptNumber) uDraw)

/-- Observable outcome of one `retry` call: the value returned or error
thrown, how many times the operation was invoked, and the sequence of
inter-attempt delays slept. -/
structure RetryOutcome (α : Type) where
  result : Except JsError α
  invocations : Nat
  delays : List ℚ

/-- The `while (attempt <= maxRetries)` loop of `retry`.  `attempt` is the
current 0-based attempt index and `remaining = maxRetries - attempt` is the
number of retries still allowed; `attempts k` is the outcome of the `k`-th
invocation of `asyncFn`, and `uRand k` the random draw used for the delay
after it. -/
def retryGo (attempts : Nat → Except JsError α) (errorKinds : List String)
    (c : RetryConfig) (uRand : Nat → ℚ) : Nat → Nat → RetryOutcome α
  | attempt, remaining =>
    match attempts attempt, remaining with
    | .ok v, _ => ⟨.ok v, attempt + 1, []⟩
    | .error e, 0 => ⟨.error e, attempt + 1, []⟩
    | .error e, r + 1 =>
      if shouldRetry errorKinds e then
        let rest := retryGo attempts errorKinds c uRand (attempt + 1) r
        ⟨rest.result, rest.invocations,
          waitedDelay c (attempt + 1) (uRand attempt) :: rest.delays⟩
      else ⟨.error e, attempt + 1, []⟩

/-- The retry loop started at attempt 0 with the full budget. -/
def retryRun (attempts : Nat → Except JsError α) (errorKinds : List String)
    (c : RetryConfig) (uRand : Nat → ℚ) : RetryOutcome α :=
  retryGo attempts errorKinds c uRand 0 c.maxRetries.toNat

/-- The default export of `src/utils/retry.js`: resolve defaults, validate
(fail fast with zero invocations), then run the loop. -/
def retry (asyncFnIsFunction errorTypesIsArray : Bool)
    (attempts : Nat → Except JsError α) (errorKinds : List String)
    (o : RetryOptions) (uRand : Nat → ℚ) : RetryOutcome α :=
  let c := resolveOptions o
  match validateRetryArgs asyncFnIsFunction errorTypesIsArray c with
  | some e => ⟨.error e, 0, []⟩
  | none => retryRun attempts errorKinds c uRand

/-! ### Orchestrator error handling (`src/index.js`) -/

/-- The constructor name of the error class `rules.js` throws, used by the
orchestrator both as the retryable kind and in its `instanceof` test. -/
def noSuitableRatesKind : String := "NoSuitableRatesError"

/-- The context the orchestrator assembles for the human notification email:
the last raw quoting response observed (`shipmentResponse`, possibly still
unset) and the error that triggered escalation. -/
structure EscalationNotice (ρ : Type) where
  lastResponse : Option ρ
  triggeringError : JsError
deriving DecidableEq

/-- What the handler does right after the `try/catch` around `retry`:
either it escalates — builds the notification from the last response and
re-throws the `NoSuitableRatesError` — or control reaches the
`easypost.buyShipment` purchase step with the recorded `chosenRate`
(`none` models the JavaScript variable still being `undefined`). -/
inductive HandlerStep (ρ α : Type) where
  | escalate (notice : EscalationNotice ρ)
  | proceedToPurchase (chosenRate : Option α)

/-- The `catch (e)` block of `purchaseShippingLabelsHandler` and the code
after it: on success, proceed to purchase with the chosen rate; on
`NoSuitableRatesError` (matched by constructor name), notify and re-throw;
on any other error the catch block has no branch, so execution falls
through to the purchase step with `chosenRate` still `undefined`. -/
def handlerAfterRetry (lastResponse : Option ρ) (res : Except JsError α) :
    HandlerStep ρ α :=
  match res with
  | .ok v => .proceedToPurchase (some v)
  | .error e =>
    if e.kind = noSuitableRatesKind then .escalate ⟨lastResponse, e⟩
    else .proceedToPurchase none

/-- The quoting-plus-selection stage of the handler: run `retry` with
`ErrorTypes = [NoSuitableRatesError]` and feed its outcome to the
`try/catch` continuation. -/
def orchestrateRateChoice (attempts : Nat → Except JsError α)
    (lastResponse : Option ρ) (c : RetryConfig) (uRand : Nat → ℚ) :
    HandlerStep ρ α :=
  handlerAfterRetry lastResponse
    (retryRun attempts [noSuitableRatesKind] c uRand).result

/-! ### Concrete fixtures used by witnesses -/

/-- The USPS quote of the worked example in the spec: $1.00, 2 delivery days. -/
def uspsQuote : Rate := ⟨some "rate_usps", "USPS", "Priority", 1, 2⟩

/-- The UPS quote of the worked example in the spec: $3.00, 1 delivery day. -/
def upsQuote : Rate := ⟨some "rate_ups", "UPS", "Ground", 3, 1⟩

/-- The worked example shipment at zone 1. -/
def exampleZone1 : EasypostShipment := ⟨[uspsQuote, upsQuote], 1⟩

/-- The worked example shipment at zone 3. -/
def exampleZone3 : EasypostShipment := ⟨[uspsQuote, upsQuote], 3⟩

/-- A zone-3 shipment whose only fast quote is USPS, so the carrier
exclusion leaves nothing. -/
def uspsOnlyZone3 : EasypostShipment :=
  ⟨[⟨some "rate_usps2", "USPS", "Express", 5, 1⟩], 3⟩

/-- A shipment with an empty rate list. -/
def emptyShipment : EasypostShipment := ⟨[], 1⟩

/-- A shipment whose only quote takes 5 days. -/
def slowShipment : EasypostShipment :=
  ⟨[⟨some "rate_fedex", "FedEx", "Ground", 5, 5⟩], 1⟩

/-- An operation that fails with a retryable `NoSuitableRatesError` on
every invocation. -/
def failAttempts : Nat → Except JsError String :=
  fun _ => .error ⟨"NoSuitableRatesError", "no suitable rate"⟩

/-- An operation that fails with a plain `Error` on every invocation. -/
def plainErrorAttempts : Nat → Except JsError String :=
  fun _ => .error ⟨"Error", "boom"⟩

/-- A degenerate random stream. -/
def uZero : Nat → ℚ := fun _ => 0

/-- The retryable kinds the orchestrator passes to `retry`. -/
def nsrKinds : List String := ["NoSuitableRatesError"]

/-- A concrete linear-retry configuration with 2 retries allowed. -/
def cfgLinear2 : RetryConfig := ⟨false, 2, 1000, 2, 0, 30000, 0⟩

/-- A concrete backoff configuration with 3 retries allowed. -/
def cfgBackoff3 : RetryConfig := ⟨true, 3, 10, 3, 0, 50, 0⟩

/-- Options with an out-of-range jitter, everything else omitted. -/
def badJitterOptions : RetryOptions := ⟨none, none, none, none, some 2, none, none⟩

/-- Options with every field omitted. -/
def defaultOptions : RetryOptions := ⟨none, none, none, none, none, none, none⟩

/-- The plain `Error` the handler closure throws when the EasyPost
response carries no rate list at all. -/
def noRatesResponseError : JsError :=
  ⟨"Error", "Shipment response from Easypost returned no rates"⟩

/-! ### Helper lemmas about the retry loop -/

theorem retryGo_ok {α} {attempts : Nat → Except JsError α} {errorKinds : List String}
    {c : RetryConfig} {u : Nat → ℚ} {attempt : Nat} {v : α} (remaining : Nat)
    (h : attempts attempt = .ok v) :
    retryGo attempts errorKinds c u attempt remaining = ⟨.ok v, attempt + 1, []⟩ := by
  cases remaining <;> simp [retryGo, h]

theorem retryGo_err_zero {α} {attempts : Nat → Except JsError α} {errorKinds : List String}
    {c : RetryConfig} {u : Nat → ℚ} {attempt : Nat} {e : JsError}
    (h : attempts attempt = .error e) :
    retryGo attempts errorKinds c u attempt 0 = ⟨.error e, attempt + 1, []⟩ := by
  simp [retryGo, h]

theorem retryGo_err_succ_retry {α} {attempts : Nat → Except JsError α}
    {errorKinds : List String} {c : RetryConfig} {u : Nat → ℚ} {attempt : Nat}
    {e : JsError} (r : Nat) (h : attempts attempt = .error e)
    (hs : shouldRetry errorKinds e = true) :
    retryGo attempts errorKinds c u attempt (r + 1) =
      ⟨(retryGo attempts errorKinds c u (attempt + 1) r).result,
       (retryGo attempts errorKinds c u (attempt + 1) r).invocations,
       waitedDelay c (attempt + 1) (u attempt) ::
         (retryGo attempts errorKinds c u (attempt + 1) r).delays⟩ := by
  simp [retryGo, h, hs]

theorem retryGo_err_succ_stop {α} {attempts : Nat → Except JsError α}
    {errorKinds : List String} {c : RetryConfig} {u : Nat → ℚ} {attempt : Nat}
    {e : JsError} (r : Nat) (h : attempts attempt = .error e)
    (hs : shouldRetry errorKinds e = false) :
    retryGo attempts errorKinds c u attempt (r + 1) = ⟨.error e, attempt + 1, []⟩ := by
  simp [retryGo, h, hs]

theorem retryGo_allFail {α} (attempts : Nat → Except JsError α)
    (errorKinds : List String) (c : RetryConfig) (u : Nat → ℚ)
    (h : ∀ k, ∃ e, attempts k = .error e ∧ shouldRetry errorKinds e = true) :
    ∀ remaining attempt, ∃ e, attempts (attempt + remaining) = .error e ∧
      (retryGo attempts errorKinds c u attempt remaining).result = .error e ∧
      (retryGo attempts errorKinds c u attempt remaining).invocations =
        attempt + remaining + 1 := by
  intro remaining
  induction remaining with
  | zero =>
    intro attempt
    obtain ⟨e, he, _⟩ := h attempt
    exact ⟨e, by simpa using he, by rw [retryGo_err_zero he], by rw [retryGo_err_zero he]⟩
  | succ r ih =>
    intro attempt
    obtain ⟨e, he, hs⟩ := h attempt
    obtain ⟨e2, he2, hres, hinv⟩ := ih (attempt + 1)
    refine ⟨e2, ?_, ?_, ?_⟩
    · have : attempt + (r + 1) = attempt + 1 + r := by omega
      rw [this]
      exact he2
    · rw [retryGo_err_succ_retry r he hs]
      exact hres
    · rw [retryGo_err_succ_retry r he hs]
      show (retryGo attempts errorKinds c u (attempt + 1) r).invocations =
        attempt + (r + 1) + 1
      omega

/-! ### Claim theorems for the retry engine -/

/-- C3: for every policy with `maxRetries = n` and every operation that fails
on every invocation with a retryable kind, `retry` invokes the operation
exactly `n + 1` times and fails with precisely the error produced by the
last (the `n + 1`-th, index `n`) invocation, unchanged. -/
theorem retry_allRetryableFailures_runs_n_plus_1 {α}
    (attempts : Nat → Except JsError α) (errorKinds : List String)
    (c : RetryConfig) (u : Nat → ℚ) (n : Nat) (hmax : c.maxRetries = (n : Int))
    (h : ∀ k, ∃ e, attempts k = .error e ∧ shouldRetry errorKinds e = true) :
    ∃ e, attempts n = .error e ∧
      (retryRun attempts errorKinds c u).result = .error e ∧
      (retryRun attempts errorKinds c u).invocations = n + 1 := by
  have hgo := retryGo_allFail attempts errorKinds c u h n 0
  rw [retryRun, hmax, Int.toNat_natCast]
  simpa using hgo

/-- C3 witness: with `maxRetries = 2` and an always-failing retryable
operation, the loop makes 3 invocations and propagates the last error. -/
theorem retry_allRetryableFailures_runs_n_plus_1_witness :
    ∃ e, failAttempts 2 = .error e ∧
      (retryRun failAttempts nsrKinds cfgLinear2 uZero).result = .error e ∧
      (retryRun failAttempts nsrKinds cfgLinear2 uZero).invocations = 2 + 1 :=
  retry_allRetryableFailures_runs_n_plus_1 failAttempts nsrKinds cfgLinear2 uZero 2 rfl
    (fun _ => ⟨⟨"NoSuitableRatesError", "no suitable rate"⟩, rfl, by decide⟩)

/-- C5: with a non-empty retryable-kind set and `maxRetries ≥ 1`, an
operation whose first invocation fails with a kind outside the set is
invoked exactly once, the original error is propagated, and no
inter-attempt delay happens. -/
theorem retry_nonRetryable_single_invocation {α}
    (attempts : Nat → Except JsError α) (errorKinds : List String)
    (c : RetryConfig) (u : Nat → ℚ) (e : JsError) (_hk : errorKinds ≠ [])
    (hmax : 1 ≤ c.maxRetries) (h0 : attempts 0 = .error e)
    (hnr : shouldRetry errorKinds e = false) :
    retryRun attempts errorKinds c u = ⟨.error e, 1, []⟩ := by
  have hr : c.maxRetries.toNat = (c.maxRetries.toNat - 1) + 1 := by omega
  rw [retryRun, hr, retryGo_err_succ_stop _ h0 hnr]

/-- C5 witness: a plain `Error` against the `NoSuitableRatesError`-only
retryable set stops after the first invocation with no delay. -/
theorem retry_nonRetryable_single_invocation_witness :
    retryRun plainErrorAttempts nsrKinds cfgLinear2 uZero =
      ⟨.error ⟨"Error", "boom"⟩, 1, []⟩ :=
  retry_nonRetryable_single_invocation plainErrorAttempts nsrKinds cfgLinear2 uZero
    ⟨"Error", "boom"⟩ (by decide) (by decide) rfl (by decide)

/-- C7: whenever the configuration is invalid — operation not callable,
retryable kinds not an array, jitter outside `[0, 1]`, negative
`maxRetries`, or negative `retryInterval` — `retry` fails with a
configuration error (a `TypeError` or `RangeError`) and the operation is
invoked zero times. -/
theorem retry_invalidConfig_failsFast {α} (asyncFnIsFunction errorTypesIsArray : Bool)
    (attempts : Nat → Except JsError α) (errorKinds : List String)
    (o : RetryOptions) (u : Nat → ℚ)
    (hbad : asyncFnIsFunction = false ∨ errorTypesIsArray = false ∨
      (resolveOptions o).jitter < 0 ∨ (resolveOptions o).jitter > 1 ∨
      (resolveOptions o).maxRetries < 0 ∨ (resolveOptions o).retryInterval < 0) :
    ∃ e, retry asyncFnIsFunction errorTypesIsArray attempts errorKinds o u =
        ⟨.error e, 0, []⟩ ∧ (e.kind = "TypeError" ∨ e.kind = "RangeError") := by
  rw [retry]
  cases hv : validateRetryArgs asyncFnIsFunction errorTypesIsArray (resolveOptions o) with
  | some e =>
    refine ⟨e, rfl, ?_⟩
    rw [validateRetryArgs] at hv
    split_ifs at hv <;> (cases hv; simp)
  | none =>
    exfalso
    rw [validateRetryArgs] at hv
    split_ifs at hv with h1 h2 h3 h4 h5
    simp only [Bool.not_eq_true'] at h1 h2
    rcases hbad with hb | hb | hb | hb | hb | hb
    · exact absurd hb h1
    · exact absurd hb h2
    · exact h3 (Or.inl hb)
    · exact h3 (Or.inr hb)
    · exact h4 hb
    · exact h5 hb

/-- C7 witness: `jitter = 2` makes `retry` fail with a `RangeError` before
any invocation, for an arbitrary operation. -/
theorem retry_invalidConfig_failsFast_witness :
    ∃ e, retry true true failAttempts nsrKinds badJitterOptions uZero =
        ⟨.error e, 0, []⟩ ∧ (e.kind = "TypeError" ∨ e.kind = "RangeError") :=
  retry_invalidConfig_failsFast true true failAttempts nsrKinds badJitterOptions uZero
    (Or.inr (Or.inr (Or.inr (Or.inl (by norm_num [resolveOptions, badJitterOptions])))))

/-- C8: under `backoff = true` and `jitter = 0` (with non-negative interval,
multiplier and cap), the delay slept after the `i`-th failed attempt, for a
retry number `i ≥ 1`, is exactly `min (retryInterval * multiplier ^ (i - 1))
maxDelay`. -/
theorem backoff_delay_formula (c : RetryConfig) (i : Nat) (uDraw : ℚ)
    (hb : c.backoff = true) (hj : c.jitter = 0) (_hi : 1 ≤ i)
    (hr : 0 ≤ c.retryInterval) (hm : 0 ≤ c.backoffMultiplier) (hM : 0 ≤ c.maxDelay) :
    waitedDelay c i uDraw =
      min (c.retryInterval * c.backoffMultiplier ^ (i - 1)) c.maxDelay := by
  have hbase : baseDelay c i =
      min (c.retryInterval * c.backoffMultiplier ^ (i - 1)) c.maxDelay := by
    simp [baseDelay, hb]
  have hjit : jitteredDelay c (baseDelay c i) uDraw = baseDelay c i := by
    simp [jitteredDelay, hj]
  rw [waitedDelay, hjit, hbase]
  exact max_eq_right (le_min (mul_nonneg hr (pow_nonneg hm _)) hM)

/-- C8 witness: with `retryInterval = 10`, `multiplier = 3`, `maxDelay = 50`
and `jitter = 0`, the delay after the third failed attempt is
`min (10 * 3 ^ 2) 50 = 50`. -/
theorem backoff_delay_formula_witness :
    waitedDelay cfgBackoff3 3 7 =
      min (cfgBackoff3.retryInterval * cfgBackoff3.backoffMultiplier ^ (3 - 1))
        cfgBackoff3.maxDelay :=
  backoff_delay_formula cfgBackoff3 3 7 rfl rfl (by norm_num)
    (by norm_num [cfgBackoff3]) (by norm_num [cfgBackoff3]) (by norm_num [cfgBackoff3])

/-- C10: when the options omit `jitter`, the destructuring default makes the
jitter factor 1 (full jitter), and then every base delay `d > 0` is replaced
by `d / 2 + d * u` for the random draw `u ∈ [0, 1)`, a value ranging over
the half-open interval `[d / 2, 3 * d / 2)`. -/
theorem jitter_defaults_to_full (o : RetryOptions) (d uDraw : ℚ)
    (hj : o.jitter = none) (hd : 0 < d) (hu0 : 0 ≤ uDraw) (hu1 : uDraw < 1) :
    (resolveOptions o).jitter = 1 ∧
    jitteredDelay (resolveOptions o) d uDraw = d / 2 + d * uDraw ∧
    d / 2 ≤ jitteredDelay (resolveOptions o) d uDraw ∧
    jitteredDelay (resolveOptions o) d uDraw < 3 * d / 2 := by
  have h1 : (resolveOptions o).jitter = 1 := by simp [resolveOptions, hj]
  have h2 : jitteredDelay (resolveOptions o) d uDraw = d / 2 + d * uDraw := by
    rw [jitteredDelay, h1, if_pos (by norm_num : (0 : ℚ) < 1)]
    ring
  refine ⟨h1, h2, ?_, ?_⟩
  · rw [h2]
    have := mul_nonneg hd.le hu0
    linarith
  · rw [h2]
    have := mul_lt_of_lt_one_right hd hu1
    linarith

/-- C10 witness: with all options omitted and base delay 4, the draw
`u = 1/2` yields the jittered delay `4 / 2 + 4 * (1 / 2) = 4`, inside
`[2, 6)`. -/
theorem jitter_defaults_to_full_witness :
    (resolveOptions defaultOptions).jitter = 1 ∧
    jitteredDelay (resolveOptions defaultOptions) 4 (1 / 2) = 4 / 2 + 4 * (1 / 2) ∧
    4 / 2 ≤ jitteredDelay (resolveOptions defaultOptions) 4 (1 / 2) ∧
    jitteredDelay (resolveOptions defaultOptions) 4 (1 / 2) < 3 * 4 / 2 :=
  jitter_defaults_to_full defaultOptions 4 (1 / 2) rfl (by norm_num) (by norm_num)
    (by norm_num)

/-- If the retry loop ends in an error whose kind is retryable, the error
can only have escaped on the final allowed attempt: the whole budget was
consumed and the error is that of the final attempt. -/
theorem retryGo_error_retryable_exhausts {α} {attempts : Nat → Except JsError α}
    {errorKinds : List String} {c : RetryConfig} {u : Nat → ℚ} {e : JsError}
    (hs : shouldRetry errorKinds e = true) :
    ∀ remaining attempt,
      (retryGo attempts errorKinds c u attempt remaining).result = .error e →
      attempts (attempt + remaining) = .error e ∧
      (retryGo attempts errorKinds c u attempt remaining).invocations =
        attempt + remaining + 1 := by
  intro remaining
  induction remaining with
  | zero =>
    intro attempt hres
    cases ha : attempts attempt with
    | ok v => rw [retryGo_ok 0 ha] at hres; cases hres
    | error e1 =>
      rw [retryGo_err_zero ha] at hres
      cases hres
      exact ⟨by simpa using ha, by rw [retryGo_err_zero ha]⟩
  | succ r ih =>
    intro attempt hres
    cases ha : attempts attempt with
    | ok v => rw [retryGo_ok (r + 1) ha] at hres; cases hres
    | error e1 =>
      by_cases hsr : shouldRetry errorKinds e1 = true
      · rw [retryGo_err_succ_retry r ha hsr] at hres
        obtain ⟨h1, h2⟩ := ih (attempt + 1) hres
        constructor
        · have harith : attempt + (r + 1) = attempt + 1 + r := by omega
          rw [harith]
          exact h1
        · rw [retryGo_err_succ_retry r ha hsr]
          show (retryGo attempts errorKinds c u (attempt + 1) r).invocations =
            attempt + (r + 1) + 1
          omega
      · rw [retryGo_err_succ_stop r ha (Bool.not_eq_true _ ▸ hsr)] at hres
        cases hres
        exact absurd hs hsr

theorem handlerAfterRetry_ok {ρ α : Type} (lastResponse : Option ρ) (v : α) :
    handlerAfterRetry lastResponse (.ok v) =
      (.proceedToPurchase (some v) : HandlerStep ρ α) := rfl

theorem handlerAfterRetry_error {ρ α : Type} (lastResponse : Option ρ) (e : JsError) :
    handlerAfterRetry lastResponse (.error e) =
      (if e.kind = noSuitableRatesKind then .escalate ⟨lastResponse, e⟩
       else .proceedToPurchase none : HandlerStep ρ α) := rfl

/-- C4: the orchestrator escalates — assembles the human notification from
the last observed quoting response and the triggering error, then re-throws
— exactly when the retry over `[NoSuitableRatesError]` ends in a
`NoSuitableRatesError`; and in that case the retry budget was fully
exhausted (`maxRetries + 1` invocations) with the final attempt producing
the triggering error.  Escalation happens in that situation and only in
that situation. -/
theorem escalation_iff_exhausted_noSuitableRates {α ρ : Type}
    (attempts : Nat → Except JsError α) (lastResponse : Option ρ)
    (c : RetryConfig) (u : Nat → ℚ) (n : EscalationNotice ρ) :
    orchestrateRateChoice attempts lastResponse c u = .escalate n ↔
      (n.lastResponse = lastResponse ∧
       n.triggeringError.kind = noSuitableRatesKind ∧
       (retryRun attempts [noSuitableRatesKind] c u).result = .error n.triggeringError ∧
       attempts c.maxRetries.toNat = .error n.triggeringError ∧
       (retryRun attempts [noSuitableRatesKind] c u).invocations =
         c.maxRetries.toNat + 1) := by
  constructor
  · intro h
    rw [orchestrateRateChoice] at h
    cases hres : (retryRun attempts [noSuitableRatesKind] c u).result with
    | ok v => rw [hres, handlerAfterRetry_ok] at h; cases h
    | error e =>
      rw [hres, handlerAfterRetry_error] at h
      by_cases hk : e.kind = noSuitableRatesKind
      · rw [if_pos hk] at h
        cases h
        have hs : shouldRetry [noSuitableRatesKind] e = true := by
          simp [shouldRetry, hk]
        obtain ⟨h1, h2⟩ := retryGo_error_retryable_exhausts hs c.maxRetries.toNat 0
          (by rw [← retryRun]; exact hres)
        rw [← retryRun] at h2
        exact ⟨rfl, hk, rfl, by simpa using h1, by simpa using h2⟩
      · rw [if_neg hk] at h
        cases h
  · rintro ⟨h1, h2, h3, -, -⟩
    rw [orchestrateRateChoice, h3, handlerAfterRetry_error, if_pos h2]
    cases n
    simp only at h1
    rw [h1]

/-- C4 witness: with the always-failing retryable operation and 2 retries
allowed, the orchestrator escalates, carrying the last response and the
final `NoSuitableRatesError`. -/
theorem escalation_iff_exhausted_noSuitableRates_witness :
    orchestrateRateChoice failAttempts (some 42) cfgLinear2 uZero =
      .escalate ⟨some 42, ⟨"NoSuitableRatesError", "no suitable rate"⟩⟩ :=
  (escalation_iff_exhausted_noSuitableRates failAttempts (some 42) cfgLinear2 uZero
    ⟨some 42, ⟨"NoSuitableRatesError", "no suitable rate"⟩⟩).mpr
    ⟨rfl, rfl, by decide, rfl, by decide⟩

/-- C2: the claim fails on the code.  When the retry stage ends in an error
that is not a `NoSuitableRatesError` — here the plain
`Error("Shipment response from Easypost returned no rates")` — the
`catch` block of `purchaseShippingLabelsHandler` has no re-throw branch, so
the error is swallowed and execution falls through to the
`easypost.buyShipment` purchase step with `chosenRate` still `undefined`,
instead of the error being propagated to the caller. -/
theorem nonRateError_swallowed_and_purchase_reached :
    handlerAfterRetry none (.error noRatesResponseError) =
      (.proceedToPurchase none : HandlerStep Unit String) := by
  rw [handlerAfterRetry_error, if_neg]
  rw [noRatesResponseError]
  simp [noSuitableRatesKind]

/-! ### Helper lemmas about rate selection -/

theorem head_min_of_sorted (l : List Rate) (hs : List.Sorted rateLE l) (hne : l ≠ []) :
    ∀ q ∈ l, (l.head hne).rate ≤ q.rate := by
  intro q hq
  cases l with
  | nil => exact absurd rfl hne
  | cons a t =>
    rcases List.mem_cons.mp hq with h | h
    · subst h
      exact le_refl _
    · exact List.rel_of_sorted_cons hs q h

theorem rules_of_empty (s : EasypostShipment) (h : s.rates = []) :
    rules s = .error ⟨"Easypost shipment returned zero rates"⟩ := by
  simp [rules, h]

theorem rules_of_none (s : EasypostShipment) (hempty : s.rates.isEmpty = false)
    (hR : ratesFor2DaysOrLess s.rates = none) :
    rules s = .error ⟨"No rates for 2 days or less"⟩ := by
  simp [rules, hempty, hR]

theorem rules_of_some_none (s : EasypostShipment) (sorted : List Rate)
    (hempty : s.rates.isEmpty = false)
    (hR : ratesFor2DaysOrLess s.rates = some sorted)
    (hc : chosenRateOf s.usps_zone sorted = none) :
    rules s = .error ⟨"chosenRate: undefined"⟩ := by
  simp [rules, hempty, hR, hc]

theorem rules_of_some_some (s : EasypostShipment) (sorted : List Rate) (i : String)
    (hempty : s.rates.isEmpty = false)
    (hR : ratesFor2DaysOrLess s.rates = some sorted)
    (hc : chosenRateOf s.usps_zone sorted = some i) :
    rules s = .ok i := by
  simp [rules, hempty, hR, hc]

/-! ### Claim theorems for rate selection -/

/-- C1: whenever some quote is eligible (two-day delivery, and non-USPS when
the zone exceeds 2) and quotes carry ids, `rules` returns the id of a
cheapest eligible quote: an eligible member of the input whose rate is at
most the rate of every eligible quote remaining after the carrier
exclusion. -/
theorem selectRate_picks_cheapest_eligible (s : EasypostShipment)
    (hex : ∃ q ∈ s.rates, eligibleRate s.usps_zone q)
    (hid : ∀ q ∈ s.rates, q.id.isSome) :
    ∃ q i, q ∈ s.rates ∧ eligibleRate s.usps_zone q ∧ q.id = some i ∧
      (∀ q2 ∈ s.rates, eligibleRate s.usps_zone q2 → q.rate ≤ q2.rate) ∧
      rules s = .ok i := by
  obtain ⟨q0, hq0mem, hq0elig⟩ := hex
  have hne : s.rates ≠ [] := List.ne_nil_of_mem hq0mem
  have hempty : s.rates.isEmpty = false := by
    simpa [List.isEmpty_iff] using hne
  have hq0f : q0 ∈ eligibleFilter s.rates :=
    List.mem_filter.mpr ⟨hq0mem, by simpa using hq0elig.1⟩
  have hq0s : q0 ∈ List.insertionSort rateLE (eligibleFilter s.rates) :=
    (List.mem_insertionSort rateLE).mpr hq0f
  have hsne : List.insertionSort rateLE (eligibleFilter s.rates) ≠ [] :=
    List.ne_nil_of_mem hq0s
  have hR : ratesFor2DaysOrLess s.rates =
      some (List.insertionSort rateLE (eligibleFilter s.rates)) := by
    simp [ratesFor2DaysOrLess, List.isEmpty_iff, hsne]
  have hsorted : List.Sorted rateLE (List.insertionSort rateLE (eligibleFilter s.rates)) :=
    List.sorted_insertionSort rateLE _
  by_cases hz : s.usps_zone > 2
  · have hq0r : q0 ∈ (List.insertionSort rateLE (eligibleFilter s.rates)).filter
        (fun q => q.carrier ≠ "USPS") :=
      List.mem_filter.mpr ⟨hq0s, by simpa using hq0elig.2 hz⟩
    have hrne : (List.insertionSort rateLE (eligibleFilter s.rates)).filter
        (fun q => q.carrier ≠ "USPS") ≠ [] := List.ne_nil_of_mem hq0r
    have hqmem_rest := List.head_mem hrne
    obtain ⟨hqs, hqc⟩ := List.mem_filter.mp hqmem_rest
    have hqf := (List.mem_insertionSort rateLE).mp hqs
    obtain ⟨hqmem, hqd⟩ := List.mem_filter.mp hqf
    have hrest_sorted : List.Sorted rateLE
        ((List.insertionSort rateLE (eligibleFilter s.rates)).filter
          (fun q => q.carrier ≠ "USPS")) :=
      List.Pairwise.filter _ hsorted
    have hmin := head_min_of_sorted _ hrest_sorted hrne
    have hchosen : chosenRateOf s.usps_zone
        (List.insertionSort rateLE (eligibleFilter s.rates)) =
        (((List.insertionSort rateLE (eligibleFilter s.rates)).filter
          (fun q => q.carrier ≠ "USPS")).head hrne).id := by
      rw [chosenRateOf, if_pos hz, List.head?_eq_head hrne]
      rfl
    obtain ⟨i, hi⟩ := Option.isSome_iff_exists.mp (hid _ hqmem)
    refine ⟨_, i, hqmem, ⟨by simpa using hqd, fun _ => by simpa using hqc⟩, hi, ?_, ?_⟩
    · intro q2 hq2mem hq2elig
      have hq2f : q2 ∈ eligibleFilter s.rates :=
        List.mem_filter.mpr ⟨hq2mem, by simpa using hq2elig.1⟩
      have hq2s : q2 ∈ List.insertionSort rateLE (eligibleFilter s.rates) :=
        (List.mem_insertionSort rateLE).mpr hq2f
      have hq2r : q2 ∈ (List.insertionSort rateLE (eligibleFilter s.rates)).filter
          (fun q => q.carrier ≠ "USPS") :=
        List.mem_filter.mpr ⟨hq2s, by simpa using hq2elig.2 hz⟩
      exact hmin q2 hq2r
    · exact rules_of_some_some s _ i hempty hR (hchosen.trans hi)
  · have hqmem_sorted := List.head_mem hsne
    have hqf := (List.mem_insertionSort rateLE).mp hqmem_sorted
    obtain ⟨hqmem, hqd⟩ := List.mem_filter.mp hqf
    have hmin := head_min_of_sorted _ hsorted hsne
    have hchosen : chosenRateOf s.usps_zone
        (List.insertionSort rateLE (eligibleFilter s.rates)) =
        ((List.insertionSort rateLE (eligibleFilter s.rates)).head hsne).id := by
      rw [chosenRateOf, if_neg hz, List.head?_eq_head hsne]
      rfl
    obtain ⟨i, hi⟩ := Option.isSome_iff_exists.mp (hid _ hqmem)
    refine ⟨_, i, hqmem, ⟨by simpa using hqd, fun hz2 => absurd hz2 hz⟩, hi, ?_, ?_⟩
    · intro q2 hq2mem hq2elig
      have hq2f : q2 ∈ eligibleFilter s.rates :=
        List.mem_filter.mpr ⟨hq2mem, by simpa using hq2elig.1⟩
      have hq2s : q2 ∈ List.insertionSort rateLE (eligibleFilter s.rates) :=
        (List.mem_insertionSort rateLE).mpr hq2f
      exact hmin q2 hq2s
    · exact rules_of_some_some s _ i hempty hR (hchosen.trans hi)

/-- C1 witness: on the worked example of the spec, zone 1 selects the cheap USPS
quote and zone 3 selects the UPS quote; and the general statement is
instantiated at the zone-3 shipment. -/
theorem selectRate_picks_cheapest_eligible_witness :
    rules exampleZone1 = .ok "rate_usps" ∧ rules exampleZone3 = .ok "rate_ups" ∧
    (∃ q i, q ∈ exampleZone3.rates ∧ eligibleRate exampleZone3.usps_zone q ∧
      q.id = some i ∧
      (∀ q2 ∈ exampleZone3.rates, eligibleRate exampleZone3.usps_zone q2 →
        q.rate ≤ q2.rate) ∧
      rules exampleZone3 = .ok i) :=
  ⟨by decide, by decide,
    selectRate_picks_cheapest_eligible exampleZone3 (by decide) (by decide)⟩

/-- C6: `rules` fails with `NoSuitableRatesError` in both degenerate cases:
an empty quote list ("zero rates") and a non-empty list where no quote
delivers within 2 days ("no rates for 2 days or less"). -/
theorem selectRate_degenerate_failures (s : EasypostShipment) :
    (s.rates = [] → rules s = .error ⟨"Easypost shipment returned zero rates"⟩) ∧
    (s.rates ≠ [] → (∀ q ∈ s.rates, ¬(q.delivery_days ≤ 2)) →
      rules s = .error ⟨"No rates for 2 days or less"⟩) := by
  constructor
  · exact rules_of_empty s
  · intro hne hslow
    have hempty : s.rates.isEmpty = false := by
      simpa [List.isEmpty_iff] using hne
    have hfilter : eligibleFilter s.rates = [] := by
      rw [eligibleFilter, List.filter_eq_nil_iff]
      intro a ha
      simpa using hslow a ha
    have hR : ratesFor2DaysOrLess s.rates = none := by
      simp [ratesFor2DaysOrLess, hfilter, List.insertionSort]
    exact rules_of_none s hempty hR

/-- C6 witness: the empty shipment and the 5-day-only shipment both fail
with the respective messages. -/
theorem selectRate_degenerate_failures_witness :
    rules emptyShipment = .error ⟨"Easypost shipment returned zero rates"⟩ ∧
    rules slowShipment = .error ⟨"No rates for 2 days or less"⟩ :=
  ⟨(selectRate_degenerate_failures emptyShipment).1 rfl,
   (selectRate_degenerate_failures slowShipment).2 (by decide) (by decide)⟩

/-- C9: a successful `rules` result is always the chosen rate id that the
selection produced (never an undefined value), and whenever the chosen rate
computation comes up undefined even though eligible rates existed, the
final guard converts it into a `NoSuitableRatesError` instead of returning. -/
theorem selectRate_defined_or_throws (s : EasypostShipment) :
    (∀ i, rules s = .ok i → ∃ sorted, ratesFor2DaysOrLess s.rates = some sorted ∧
      chosenRateOf s.usps_zone sorted = some i) ∧
    (∀ sorted, s.rates ≠ [] → ratesFor2DaysOrLess s.rates = some sorted →
      chosenRateOf s.usps_zone sorted = none →
      rules s = .error ⟨"chosenRate: undefined"⟩) := by
  constructor
  · intro i hok
    cases hE : s.rates.isEmpty with
    | true =>
      rw [rules_of_empty s (List.isEmpty_iff.mp hE)] at hok
      cases hok
    | false =>
      cases hR : ratesFor2DaysOrLess s.rates with
      | none =>
        rw [rules_of_none s hE hR] at hok
        cases hok
      | some sorted =>
        cases hc : chosenRateOf s.usps_zone sorted with
        | none =>
          rw [rules_of_some_none s sorted hE hR hc] at hok
          cases hok
        | some j =>
          have hj := rules_of_some_some s sorted j hE hR hc
          rw [hok] at hj
          injection hj with hj
          exact ⟨sorted, rfl, by rw [hc, hj]⟩
  · intro sorted hne hR hc
    have hempty : s.rates.isEmpty = false := by
      simpa [List.isEmpty_iff] using hne
    exact rules_of_some_none s sorted hempty hR hc

/-- C9 witness: a zone-3 shipment whose only fast quote is USPS reaches the
final guard with an undefined chosen rate and fails with
`NoSuitableRatesError("chosenRate: undefined")`; the success direction is
instantiated on the zone-1 worked example. -/
theorem selectRate_defined_or_throws_witness :
    (∃ sorted, ratesFor2DaysOrLess exampleZone1.rates = some sorted ∧
      chosenRateOf exampleZone1.usps_zone sorted = some "rate_usps") ∧
    rules uspsOnlyZone3 = .error ⟨"chosenRate: undefined"⟩ :=
  ⟨(selectRate_defined_or_throws exampleZone1).1 "rate_usps" (by decide),
   (selectRate_defined_or_throws uspsOnlyZone3).2
     (List.insertionSort rateLE (eligibleFilter uspsOnlyZone3.rates))
     (by decide) (by decide) (by decide)⟩

end HotDates
